import Mathlib

/-!
Verification development for the Restaurant.Kiosk peripherals agent
(`kiosk_peripherals.py`, `arduino_cash_reader.py`,
`receipt_printer_client.py`, `receipt_printer.py`).

The Python code is shallowly embedded: device lines (Python `str`) are
modelled as `List Char`; Python `float` money amounts are modelled as exact
rationals `ℚ` (the amounts in play are short decimals, and every claim only
moves an amount through unchanged or compares it with zero); network I/O is
modelled by passing the remote's responses in explicitly and collecting the
remote calls a function issues into a returned trace.
-/

namespace RestaurantKiosk

attribute [local semireducible] Rat.add Rat.sub Rat.mul Rat.inv Rat.ofScientific

/-! ## Python string primitives (on `List Char`) -/

/-- Whitespace characters stripped by Python `str.strip()` (ASCII subset). -/
def isPySpace (c : Char) : Bool :=
  c == ' ' || c == '\t' || c == '\n' || c == '\r' || c == '\x0b' || c == '\x0c'

/-- Python `s.strip()`. -/
def pyStrip (s : List Char) : List Char :=
  ((s.dropWhile isPySpace).reverse.dropWhile isPySpace).reverse

/-- Does `p` lead `s`?  (Recursion is on the prefix `p`.) -/
def swGo : List Char → List Char → Bool
  | [], _ => true
  | _ :: _, [] => false
  | p0 :: ps, c :: cs => p0 == c && swGo ps cs

/-- Python `s.startswith(p)`. -/
def startsWithL (s p : List Char) : Bool :=
  swGo p s

/-- The remainder after the first `:` — `s.split(":", 1)[1]` for a string
that contains a colon. -/
def afterColon (s : List Char) : List Char :=
  (s.dropWhile (fun c => !(c == ':'))).drop 1

/-- Decimal digit test. -/
def isDigitChar (c : Char) : Bool :=
  '0' ≤ c && c ≤ '9'

/-- Value of a digit string. -/
def natOfDigits (ds : List Char) : Nat :=
  ds.foldl (fun n c => n * 10 + (c.toNat - 48)) 0

/-- Python `float(s)` restricted to plain decimal literals
(optional sign, digits, optional fractional part), returning `none` where
Python raises `ValueError`.  Exotic accepted forms (exponents, `inf`,
`nan`, underscores) are not modelled; the claims only quantify over lines
whose payload does parse. -/
def pyFloat (s : List Char) : Option ℚ :=
  let t := pyStrip s
  let signed : ℚ × List Char :=
    match t with
    | '-' :: rest => (-1, rest)
    | '+' :: rest => (1, rest)
    | _ => (1, t)
  let sign := signed.1
  let u := signed.2
  let intPart := u.takeWhile isDigitChar
  let rest := u.dropWhile isDigitChar
  match rest with
  | [] =>
    if intPart.isEmpty then none
    else some (sign * (natOfDigits intPart : ℚ))
  | '.' :: fracRest =>
    let fracPart := fracRest.takeWhile isDigitChar
    let rest2 := fracRest.dropWhile isDigitChar
    if !rest2.isEmpty then none
    else if intPart.isEmpty && fracPart.isEmpty then none
    else some (sign *
      ((natOfDigits intPart : ℚ) +
        (natOfDigits fracPart : ℚ) / ((10 : ℚ) ^ fracPart.length)))
  | _ => none

/-! ## Data model -/

/-- One active payment session as returned by
`GET /api/cash-payment/active-sessions`. -/
structure SessionData where
  orderNumber : String
  totalRequired : ℚ
  amountInserted : ℚ
deriving Repr, DecidableEq

/-- `CashUpdate` dataclass (the timestamp plays no role in any claim). -/
structure CashUpdate where
  order_number : String
  amount_added : ℚ
deriving Repr, DecidableEq

/-- A remote HTTP call attempted by the agent, as recorded in a trace. -/
inductive RemoteCall where
  /-- `POST /api/cash-payment/update` with the given payload. -/
  | update (orderNumber : String) (amountAdded : ℚ)
  /-- `POST /api/cash-payment/cancel/{orderNumber}`. -/
  | cancel (orderNumber : String)
  /-- `POST /api/receipt/queue/complete/{jobId}`. -/
  | markCompleted (jobId : String)
  /-- `POST /api/receipt/queue/failed/{jobId}` with the given error text. -/
  | markFailed (jobId : String) (error : String)
deriving Repr, DecidableEq

/-- Python truthiness of the `current_order` field (`None` and the empty
string are both falsy). -/
def truthyOrder : Option String → Bool
  | none => false
  | some s => !(s == "")

/-- The mutable state of `ArduinoCashReader` that the claims concern:
the `current_order` pointer and the `active_sessions` dict.  The dict is
modelled as an insertion-ordered association list, matching CPython's
dict iteration order. -/
structure CashState where
  current_order : Option String
  active_sessions : List (String × SessionData)
deriving Repr, DecidableEq

/-- Key membership in the modelled dict. -/
def dictMem (d : List (String × SessionData)) (k : String) : Bool :=
  d.any (fun p => p.1 == k)

/-- Insert-or-overwrite preserving first-insertion order, as a Python dict
assignment does. -/
def dictInsert (d : List (String × SessionData)) (k : String) (v : SessionData) :
    List (String × SessionData) :=
  if dictMem d k then d.map (fun p => if p.1 == k then (k, v) else p)
  else d ++ [(k, v)]

/-- `{s['orderNumber']: s for s in sessions}`. -/
def buildSessions (ss : List SessionData) : List (String × SessionData) :=
  ss.foldl (fun d s => dictInsert d s.orderNumber s) []

/-! ## `poll_active_sessions` -/

/-- Parsed body of a 200 response from
`GET /api/cash-payment/active-sessions`. -/
structure PollBody where
  success : Bool
  sessions : List SessionData
deriving Repr, DecidableEq

/-- What the remote did for one poll.  `netError` covers
`ConnectionError` and any other exception raised while performing the
request; a 200 whose body is not parseable JSON (`response.json()`
raises) is `http status none`. -/
inductive PollResponse where
  | netError
  | http (status : Nat) (body : Option PollBody)
deriving Repr, DecidableEq

/-- Session-lifecycle notifications emitted while diffing a poll result
against the local cache (the human-facing log/console messages). -/
inductive SessionEvent where
  | newSession (orderNumber : String)
  | sessionGone (orderNumber : String)
deriving Repr, DecidableEq

/-- `ArduinoCashReader.poll_active_sessions`
(`kiosk_peripherals.py:140-193`; `arduino_cash_reader.py:106-159` is
line-for-line the same logic).  Returns the new state, the boolean the
method returns, and the notifications fired, in program order
(new-session notifications first, then completed/cancelled ones). -/
def poll_active_sessions (st : CashState) (resp : PollResponse) :
    CashState × Bool × List SessionEvent :=
  match resp with
  | .netError => (st, false, [])
  | .http status body =>
    if status == 200 then
      match body with
      | none => (st, false, [])
      | some data =>
        if data.success then
          let newSessions := buildSessions data.sessions
          let newEvents :=
            (newSessions.filter (fun p => !dictMem st.active_sessions p.1)).map
              (fun p => SessionEvent.newSession p.1)
          let goneKeys :=
            (st.active_sessions.map (fun p => p.1)).filter
              (fun k => !dictMem newSessions k)
          let goneEvents := goneKeys.map SessionEvent.sessionGone
          let cur1 :=
            if goneKeys.any (fun k => st.current_order == some k) then none
            else st.current_order
          let cur2 :=
            match newSessions with
            | [] => cur1
            | p :: _ => if truthyOrder cur1 then cur1 else some p.1
          (⟨cur2, newSessions⟩, true, newEvents ++ goneEvents)
        else (st, false, [])
    else (st, false, [])

/-! ## `send_cash_update` -/

/-- Outcome of one HTTP POST attempt inside `send_cash_update`.
`exn` covers timeout, connection error and any other exception (including
a 200 whose body fails to parse, which the generic `except` also turns
into a retry); `http status isComplete` is a response whose parsed body
has the given `isComplete` flag. -/
inductive AttemptOutcome where
  | exn
  | http (status : Nat) (isComplete : Bool)
deriving Repr, DecidableEq

/-- `ArduinoCashReader.send_cash_update` (`kiosk_peripherals.py:242-285`;
same logic at `arduino_cash_reader.py:186-245`).  `outcomes` lists the
remote's behaviour for the successive attempts; its length is the
configured `retry_attempts` (`for attempt in range(max_retries)`), 3 by
default.  Returns the boolean result, the trace of update calls
attempted (one per loop iteration executed), and the `current_order`
value after the call (cleared when a 200 body has `isComplete`). -/
def send_cash_update (cur : Option String) (u : CashUpdate) :
    List AttemptOutcome → Bool × List RemoteCall × Option String
  | [] => (false, [], cur)
  | o :: rest =>
    let call := RemoteCall.update u.order_number u.amount_added
    -- `attempt < max_retries - 1` on attempt `i` of `range(max_retries)`
    -- is exactly "outcomes remain after this one"; the failure arms of the
    -- source (non-200 status, and each `except` clause) all run this same
    -- retry-or-give-up logic.
    let retry : Bool × List RemoteCall × Option String :=
      if rest.isEmpty then (false, [call], cur)
      else
        let r := send_cash_update cur u rest
        (r.1, call :: r.2.1, r.2.2)
    match o with
    | .http status isComplete =>
      if status == 200 then
        (true, [call], if isComplete then none else cur)
      else retry
    | .exn => retry

/-! ## `parse_arduino_data` — the unified script's parser -/

namespace Kiosk

/-- `ArduinoCashReader.parse_arduino_data` of `kiosk_peripherals.py`
(lines 287-352).  Pure: it only reads `current_order` and returns the
`CashUpdate` (or `None`); it issues no remote call and mutates nothing. -/
def parse_arduino_data (current_order : Option String) (data : List Char) :
    Option CashUpdate :=
  let d := pyStrip data
  if d.isEmpty then none
  else if startsWithL d ("#".data) then none
  else if d == "READY".data || d == "PONG".data then none
  else if startsWithL d ("BILL:".data) || startsWithL d ("COIN:".data) then
    match current_order with
    | none => none
    | some o =>
      if o == "" then none
      else
        match pyFloat (afterColon d) with
        | none => none
        | some amount =>
          if 0 < amount then some ⟨o, amount⟩ else none
  else none

end Kiosk

/-! ## `parse_arduino_data` — the standalone cash reader's parser -/

/-- Result of one call to the standalone parser: the returned
`CashUpdate` (if any), the remote calls it issued, and the value of
`current_order` afterwards. -/
structure ParseEffect where
  update : Option CashUpdate
  calls : List RemoteCall
  current_order : Option String
deriving Repr, DecidableEq

namespace Acr

/-- `ArduinoCashReader.parse_arduino_data` of `arduino_cash_reader.py`
(lines 247-305).  Unlike the unified script's parser it handles
`CANCEL`: with a truthy `current_order` it calls `cancel_payment` (whose
HTTP result is ignored) and clears the pointer. -/
def parse_arduino_data (current_order : Option String) (data : List Char) :
    ParseEffect :=
  let d := pyStrip data
  if d.isEmpty then ⟨none, [], current_order⟩
  else if d == "CANCEL".data then
    match current_order with
    | none => ⟨none, [], current_order⟩
    | some o =>
      if o == "" then ⟨none, [], current_order⟩
      else ⟨none, [RemoteCall.cancel o], none⟩
  else
    match current_order with
    | none => ⟨none, [], current_order⟩
    | some o =>
      if o == "" then ⟨none, [], current_order⟩
      else if startsWithL d ("BILL:".data) || startsWithL d ("COIN:".data) then
        match pyFloat (afterColon d) with
        | none => ⟨none, [], current_order⟩
        | some amount =>
          if 0 < amount then ⟨some ⟨o, amount⟩, [], current_order⟩
          else ⟨none, [], current_order⟩
      else ⟨none, [], current_order⟩

end Acr

/-- The unified script's parser viewed with its (empty) effects, for
stating claims that compare the two parsers: `kiosk_peripherals.py`'s
`parse_arduino_data` performs no remote call and no assignment to
`current_order` (its body only logs), so its effect record is constant
in those components. -/
def kioskParseEffect (current_order : Option String) (data : List Char) :
    ParseEffect :=
  ⟨Kiosk.parse_arduino_data current_order data, [], current_order⟩

/-- One iteration of the body of the unified script's read loop that
handles a received line (`kiosk_peripherals.py:398-405`): parse, and if a
`CashUpdate` was produced, send it.  Returns the new state and the trace
of remote calls. -/
def kioskReadIteration (st : CashState) (line : List Char)
    (outcomes : List AttemptOutcome) : CashState × List RemoteCall :=
  match Kiosk.parse_arduino_data st.current_order line with
  | none => (st, [])
  | some u =>
    let r := send_cash_update st.current_order u outcomes
    (⟨r.2.2, st.active_sessions⟩, r.2.1)

/-! ## Receipt printing (`ReceiptPrinterClient` of `kiosk_peripherals.py`) -/

/-- Python `s[:n]` on a `String` (computed on the character list so the
kernel can evaluate it). -/
def strTake (s : String) (n : Nat) : String :=
  String.mk (s.data.take n)

/-- Python `s.strip()` on a `String`. -/
def pyStripStr (s : String) : String :=
  String.mk (pyStrip s.data)

/-- `ReceiptPrinterClient._safe_text`: encode to ASCII replacing each
non-ASCII character with `?`. -/
def safe_text (s : String) : String :=
  String.mk (s.data.map (fun c => if c.toNat ≤ 127 then c else '?'))

/-- A run of `n` spaces. -/
def spaces (n : Nat) : String :=
  String.mk (List.replicate n ' ')

/-- Python `s.ljust(w)`. -/
def pyLjust (s : String) (w : Nat) : String :=
  s ++ spaces (w - s.length)

/-- Python `s.rjust(w)`. -/
def pyRjust (s : String) (w : Nat) : String :=
  spaces (w - s.length) ++ s

/-- Two-digit zero-padded rendering of `n < 100`. -/
def pad2 (n : Nat) : String :=
  if n < 10 then "0" ++ toString n else toString n

/-- Python `f'{x:.2f}'` for the non-negative amounts the receipts carry.
Every amount a claim evaluates is an exact multiple of 1/100, on which
this agrees exactly with CPython's float formatting. -/
def fmt2 (q : ℚ) : String :=
  let n := (⌊q * 100 + 1 / 2⌋).toNat
  toString (n / 100) ++ "." ++ pad2 (n % 100)

/-- `ReceiptPrinterClient._center_text` (`kiosk_peripherals.py:650-666`),
including its trailing safety truncation. -/
def center_text (text : String) (width : Nat) : String :=
  let text := pyStripStr text
  if width ≤ text.length then strTake text width
  else
    let total := width - text.length
    let left := total / 2
    let right := total - left
    let result := spaces left ++ text ++ spaces right
    if width < result.length then strTake result width else result

/-- One ordered line item of the receipt payload.  Fields accessed in the
source via `dict.get(key, default)` are `Option`s here, with the default
applied at the use site exactly as the source does. -/
structure ReceiptItem where
  productName : Option String
  quantity : Option Int
  lineTotal : Option ℚ
deriving Repr, DecidableEq

/-- The receipt payload record handed to `_generate_receipt_lines`. -/
structure ReceiptData where
  restaurantName : Option String
  restaurantAddress : Option String
  restaurantPhone : Option String
  orderNumber : Option String
  orderDate : Option String
  customerName : Option String
  items : List ReceiptItem
  subTotal : Option ℚ
  tax : Option ℚ
  totalAmount : Option ℚ
  paymentMethod : Option String
  amountPaid : Option ℚ
  change : Option ℚ
deriving Repr, DecidableEq

/-- `ReceiptPrinterClient._generate_receipt_lines`
(`kiosk_peripherals.py:546-648`). -/
def generate_receipt_lines (d : ReceiptData) : List String :=
  let name := safe_text (d.restaurantName.getD "Restaurant")
  let address := safe_text (d.restaurantAddress.getD "")
  let phone := safe_text (d.restaurantPhone.getD "")
  let headerLines :=
    [center_text name 28]
    ++ (if address == "" then [] else [center_text address 28])
    ++ (if phone == "" then [] else [center_text phone 28])
    ++ ["", ""]
  let order_num := strTake (safe_text (d.orderNumber.getD "N/A")) 20
  let order_date := strTake (safe_text (d.orderDate.getD "")) 25
  let custLines :=
    match d.customerName with
    | none => []
    | some c => if c == "" then [] else ["Cust: " ++ strTake (safe_text c) 20]
  let orderLines :=
    ["Order: " ++ order_num, "Date: " ++ order_date] ++ custLines ++ ["", ""]
  let itemHeader := ["ITEM             QTY  PRICE", ""]
  let itemLines := d.items.map (fun it =>
    let item_name0 := safe_text (it.productName.getD "Unknown")
    let qty := it.quantity.getD 0
    let price := (it.lineTotal).getD 0
    let item_name1 := if 16 < item_name0.length then strTake item_name0 16 else item_name0
    let item_name := pyLjust item_name1 16
    let qty_str := pyRjust (toString qty) 3
    let price_str := pyRjust (fmt2 price) 8
    item_name ++ " " ++ qty_str ++ price_str)
  let subtotal := d.subTotal.getD 0
  let tax := d.tax.getD 0
  let total := d.totalAmount.getD 0
  let totalsLines :=
    ["", "", "Subtotal:" ++ pyRjust (fmt2 subtotal) 18]
    ++ (if 0 < tax then ["VAT:" ++ pyRjust (fmt2 tax) 23] else [])
    ++ ["", "TOTAL:" ++ pyRjust (fmt2 total) 21, "", ""]
  let payment_method := strTake (safe_text (d.paymentMethod.getD "N/A")) 15
  let paidLines :=
    match d.amountPaid with
    | none => []
    | some amount_paid =>
      if amount_paid == 0 then []
      else
        ["Paid:" ++ pyRjust (fmt2 amount_paid) 22]
        ++ (let change := d.change.getD 0
            if 0 < change then ["Change:" ++ pyRjust (fmt2 change) 20] else [])
  let paymentLines := ["Pay: " ++ payment_method, ""] ++ paidLines ++ ["", ""]
  let footerLines :=
    [center_text "THANK YOU!" 28, center_text "Please come again" 28, "",
      center_text "Have a great day!" 28, "", "", ""]
  headerLines ++ orderLines ++ itemHeader ++ itemLines ++ totalsLines
    ++ paymentLines ++ footerLines

/-- `ReceiptPrinterClient._send_arduino_command`
(`kiosk_peripherals.py:529-544`).  Returns the device line written to the
wire (`none` when the connection is not open — the method then does
nothing) and whether the over-length truncation warning was logged.
Python's `len` on these ASCII protocol strings equals the UTF-8 byte
count. -/
def send_arduino_command (connOpen : Bool) (command : String) :
    Option String × Bool :=
  if connOpen then
    let tooLong := 50 < command.length
    let c := if tooLong then strTake command 50 else command
    (some (c ++ "\n"), tooLong)
  else (none, false)

/-- How one `print_receipt` invocation went: normal completion, or an
exception raised somewhere during rendering or transmission (caught by
the method's catch-all handler). -/
inductive PrintOutcome where
  | ok
  | raised (msg : String)
deriving Repr, DecidableEq

/-- `ReceiptPrinterClient.print_receipt` (`kiosk_peripherals.py:466-527`)
at the resolution the dispatcher claim needs: it returns `False` when the
Arduino connection is not open, `True` on normal completion, and `False`
(never an exception — the body is wrapped in `try/except`) when anything
raised during rendering or transmission. -/
def print_receipt (connOpen : Bool) (outcome : PrintOutcome) : Bool :=
  if !connOpen then false
  else
    match outcome with
    | .ok => true
    | .raised _ => false

/-- A fetched print job (`jobId` as used by the acknowledgement calls). -/
structure PrintJob where
  jobId : String
deriving Repr, DecidableEq

/-- One polling iteration of `ReceiptPrinterClient.run`
(`kiosk_peripherals.py:696-721`): skip while the Arduino connection is
unavailable, otherwise fetch at most one job, print it, and report the
outcome.  Returns the remote acknowledgement calls made. -/
def printerPollIteration (connAtLoop : Bool) (fetched : Option PrintJob)
    (connAtPrint : Bool) (outcome : PrintOutcome) : List RemoteCall :=
  if !connAtLoop then []
  else
    match fetched with
    | none => []
    | some j =>
      if print_receipt connAtPrint outcome then
        [RemoteCall.markCompleted j.jobId]
      else
        [RemoteCall.markFailed j.jobId "Printing failed"]

/-! ## The cash reader as a state machine (for the pointer/cache invariant) -/

/-- The operations that can touch `current_order` or `active_sessions`:
a poll, a device line handled by the unified script's loop, and a device
line handled by the standalone script's loop (whose parser owns the
`CANCEL` path). -/
inductive Step where
  | poll (resp : PollResponse)
  | kioskLine (line : List Char) (outcomes : List AttemptOutcome)
  | acrLine (line : List Char) (outcomes : List AttemptOutcome)

/-- Effect of one operation on the reader's state. -/
def applyStep (st : CashState) (s : Step) : CashState :=
  match s with
  | .poll resp => (poll_active_sessions st resp).1
  | .kioskLine line outcomes => (kioskReadIteration st line outcomes).1
  | .acrLine line outcomes =>
    let pe := Acr.parse_arduino_data st.current_order line
    match pe.update with
    | none => ⟨pe.current_order, st.active_sessions⟩
    | some u =>
      let r := send_cash_update pe.current_order u outcomes
      ⟨r.2.2, st.active_sessions⟩

/-- `ArduinoCashReader.__init__`: pointer unset, cache empty. -/
def initState : CashState := ⟨none, []⟩

/-- Run a sequence of operations from the initial state. -/
def runSteps (steps : List Step) : CashState :=
  steps.foldl applyStep initState

/-- The pointer/cache invariant: a set `current_order` is a key of
`active_sessions`. -/
def PointerInv (st : CashState) : Prop :=
  ∀ o, st.current_order = some o → dictMem st.active_sessions o = true

/-! ## Helper lemmas about `send_cash_update` -/

/-- Every call attempted by `send_cash_update` is an update carrying the
`CashUpdate`'s own payload. -/
theorem send_cash_update_calls_payload (cur : Option String) (u : CashUpdate) :
    ∀ (outs : List AttemptOutcome) (call : RemoteCall),
      call ∈ (send_cash_update cur u outs).2.1 →
      call = RemoteCall.update u.order_number u.amount_added := by
  intro outs
  induction outs with
  | nil => intro call h; simp [send_cash_update] at h
  | cons o rest ih =>
    intro call h
    simp only [send_cash_update] at h
    cases o with
    | http status isComplete =>
      by_cases hs : (status == 200) = true
      · simp [hs] at h
        simp [h]
      · rw [Bool.not_eq_true] at hs
        simp only [hs, Bool.false_eq_true, if_false] at h
        by_cases he : rest.isEmpty
        · simp [he] at h
          simp [h]
        · simp only [he, Bool.false_eq_true, if_false, List.mem_cons] at h
          rcases h with h | h
          · simp [h]
          · exact ih call h
    | exn =>
      by_cases he : rest.isEmpty
      · simp [he] at h
        simp [h]
      · simp only [he, Bool.false_eq_true, if_false, List.mem_cons] at h
        rcases h with h | h
        · simp [h]
        · exact ih call h

/-- `send_cash_update` makes at most one attempt per entry of the outcome
list (one POST per executed loop iteration). -/
theorem send_cash_update_len (cur : Option String) (u : CashUpdate) :
    ∀ outs : List AttemptOutcome,
      ((send_cash_update cur u outs).2.1).length ≤ outs.length := by
  intro outs
  induction outs with
  | nil => simp [send_cash_update]
  | cons o rest ih =>
    simp only [send_cash_update]
    cases o with
    | http status isComplete =>
      by_cases hs : (status == 200) = true
      · simp [hs]
      · rw [Bool.not_eq_true] at hs
        by_cases he : rest.isEmpty
        · simp [hs, he]
        · simp only [hs, he, Bool.false_eq_true, if_false, List.length_cons]
          exact Nat.succ_le_succ ih
    | exn =>
      by_cases he : rest.isEmpty
      · simp [he]
      · simp only [he, Bool.false_eq_true, if_false, List.length_cons]
        exact Nat.succ_le_succ ih

/-- After `send_cash_update`, `current_order` is either untouched or
cleared. -/
theorem send_cash_update_cur (cur : Option String) (u : CashUpdate) :
    ∀ outs : List AttemptOutcome,
      (send_cash_update cur u outs).2.2 = cur ∨
      (send_cash_update cur u outs).2.2 = none := by
  intro outs
  induction outs with
  | nil => simp [send_cash_update]
  | cons o rest ih =>
    simp only [send_cash_update]
    cases o with
    | http status isComplete =>
      by_cases hs : (status == 200) = true
      · by_cases hc : isComplete = true <;> simp [hs, hc]
      · rw [Bool.not_eq_true] at hs
        by_cases he : rest.isEmpty
        · simp [hs, he]
        · simpa [hs, he] using ih
    | exn =>
      by_cases he : rest.isEmpty
      · simp [he]
      · simpa [he] using ih

/-- A first attempt answered HTTP 200 ends the loop with a single call. -/
theorem send_cash_update_first_success (cur : Option String) (u : CashUpdate)
    (c : Bool) (rest : List AttemptOutcome) :
    send_cash_update cur u (AttemptOutcome.http 200 c :: rest) =
      (true, [RemoteCall.update u.order_number u.amount_added],
        if c then none else cur) := by
  by_cases hc : c = true <;> simp [send_cash_update, hc]

/-- A failed attempt with outcomes remaining recurses on the rest,
prepending its own call. -/
theorem send_cash_update_fail_step (cur : Option String) (u : CashUpdate)
    (o : AttemptOutcome) (rest : List AttemptOutcome)
    (hfail : ∀ c, o ≠ AttemptOutcome.http 200 c)
    (hne : rest.isEmpty = false) :
    send_cash_update cur u (o :: rest) =
      ((send_cash_update cur u rest).1,
       RemoteCall.update u.order_number u.amount_added ::
         (send_cash_update cur u rest).2.1,
       (send_cash_update cur u rest).2.2) := by
  cases o with
  | exn => simp [send_cash_update, hne]
  | http status c =>
    have hs : (status == 200) = false := by
      apply beq_eq_false_iff_ne.mpr
      intro h
      exact hfail c (by rw [h])
    simp [send_cash_update, hs, hne]

/-- A failed final attempt gives up. -/
theorem send_cash_update_fail_last (cur : Option String) (u : CashUpdate)
    (o : AttemptOutcome) (hfail : ∀ c, o ≠ AttemptOutcome.http 200 c) :
    send_cash_update cur u [o] =
      (false, [RemoteCall.update u.order_number u.amount_added], cur) := by
  cases o with
  | exn => simp [send_cash_update]
  | http status c =>
    have hs : (status == 200) = false := by
      apply beq_eq_false_iff_ne.mpr
      intro h
      exact hfail c (by rw [h])
    simp [send_cash_update, hs]

/-! ## Claims C5, C2, C6 -/
/-- C5: `send_cash_update` makes at most 3 attempts when configured with
the default `retry_attempts = 3`; two timeouts followed by an HTTP 200
give exactly 3 attempts and success; three consecutive failures give
exactly 3 attempts and failure, with no further attempt. -/
theorem C5_send_cash_update_retry :
    (∀ (cur : Option String) (u : CashUpdate) (o1 o2 o3 : AttemptOutcome),
      ((send_cash_update cur u [o1, o2, o3]).2.1).length ≤ 3) ∧
    (∀ (cur : Option String) (u : CashUpdate) (c : Bool),
      send_cash_update cur u
          [AttemptOutcome.exn, AttemptOutcome.exn, AttemptOutcome.http 200 c] =
        (true,
         [RemoteCall.update u.order_number u.amount_added,
          RemoteCall.update u.order_number u.amount_added,
          RemoteCall.update u.order_number u.amount_added],
         if c then none else cur)) ∧
    (∀ (cur : Option String) (u : CashUpdate) (o1 o2 o3 : AttemptOutcome),
      (∀ c, o1 ≠ AttemptOutcome.http 200 c) →
      (∀ c, o2 ≠ AttemptOutcome.http 200 c) →
      (∀ c, o3 ≠ AttemptOutcome.http 200 c) →
      (send_cash_update cur u [o1, o2, o3]).1 = false ∧
      ((send_cash_update cur u [o1, o2, o3]).2.1).length = 3) := by
  refine ⟨?_, ?_, ?_⟩
  · intro cur u o1 o2 o3
    simpa using send_cash_update_len cur u [o1, o2, o3]
  · intro cur u c
    rw [send_cash_update_fail_step cur u .exn [.exn, .http 200 c]
      (fun _ h => by cases h) rfl]
    rw [send_cash_update_fail_step cur u .exn [.http 200 c]
      (fun _ h => by cases h) rfl]
    rw [send_cash_update_first_success]
  · intro cur u o1 o2 o3 h1 h2 h3
    rw [send_cash_update_fail_step cur u o1 [o2, o3] h1 rfl]
    rw [send_cash_update_fail_step cur u o2 [o3] h2 rfl]
    rw [send_cash_update_fail_last cur u o3 h3]
    simp

/-- C5 witness: at a concrete update and the all-timeout outcome
sequence, the call fails after exactly 3 attempts. -/
theorem C5_witness :
    (send_cash_update (some "K-1") ⟨"K-1", 100⟩
        [AttemptOutcome.exn, AttemptOutcome.exn, AttemptOutcome.exn]).1 = false ∧
    ((send_cash_update (some "K-1") ⟨"K-1", 100⟩
        [AttemptOutcome.exn, AttemptOutcome.exn, AttemptOutcome.exn]).2.1).length = 3 :=
  C5_send_cash_update_retry.2.2 (some "K-1") ⟨"K-1", 100⟩ .exn .exn .exn
    (fun _ h => by cases h) (fun _ h => by cases h) (fun _ h => by cases h)

/-- C2: each polling iteration of the print dispatcher reports exactly
one outcome per fetched job — `Completed` when `print_receipt` succeeded,
`Failed` otherwise (including any exception, which `print_receipt` turns
into `False`) — and reports nothing when no job was fetched. -/
theorem C2_printer_reports_exactly_one :
    (∀ (j : PrintJob) (connAtPrint : Bool) (outcome : PrintOutcome),
      (printerPollIteration true (some j) connAtPrint outcome =
          [RemoteCall.markCompleted j.jobId] ∧
        print_receipt connAtPrint outcome = true) ∨
      (printerPollIteration true (some j) connAtPrint outcome =
          [RemoteCall.markFailed j.jobId "Printing failed"] ∧
        print_receipt connAtPrint outcome = false)) ∧
    (∀ (connAtPrint : Bool) (outcome : PrintOutcome),
      printerPollIteration true none connAtPrint outcome = []) := by
  constructor
  · intro j connAtPrint outcome
    cases hpr : print_receipt connAtPrint outcome
    · right; simp [printerPollIteration, hpr]
    · left; simp [printerPollIteration, hpr]
  · intro connAtPrint outcome
    simp [printerPollIteration]

/-- C6: a command longer than 50 characters is truncated to 50, the
truncation warning is recorded, and the truncated form followed by the
newline terminator is exactly what is written; a command within bounds is
written unchanged with no warning. -/
theorem C6_send_command_truncation :
    (∀ command : String, 50 < command.length →
      send_arduino_command true command =
        (some (strTake command 50 ++ "\n"), true)) ∧
    (∀ command : String, command.length ≤ 50 →
      send_arduino_command true command = (some (command ++ "\n"), false)) := by
  constructor
  · intro command h
    simp [send_arduino_command, h]
  · intro command h
    simp [send_arduino_command, Nat.not_lt.mpr h]

/-- C6 witness: a concrete 60-character command is written as its
50-character truncation plus newline, with the warning flag set. -/
theorem C6_witness :
    send_arduino_command true (String.mk (List.replicate 60 'x')) =
      (some (String.mk (List.replicate 50 'x') ++ "\n"), true) := by
  have h := C6_send_command_truncation.1 (String.mk (List.replicate 60 'x'))
    (by decide)
  rw [h]
  decide

/-! ## Claims C7, C8, C9 -/
/-- The concrete receipt payload of the rendering claim:
`{orderNumber:"K-1", items:[{productName:"Burger", quantity:2,
lineTotal:8.00}], subTotal:8.00, tax:0.96, totalAmount:8.96,
paymentMethod:"cash", amountPaid:10.00, change:1.04}`. -/
def c7Payload : ReceiptData where
  restaurantName := none
  restaurantAddress := none
  restaurantPhone := none
  orderNumber := some "K-1"
  orderDate := none
  customerName := none
  items := [⟨some "Burger", some 2, some 8⟩]
  subTotal := some 8
  tax := some (96 / 100)
  totalAmount := some (896 / 100)
  paymentMethod := some "cash"
  amountPaid := some 10
  change := some (104 / 100)

/-- C7 counterexample: the rendered receipt contains no line equal to
`"Burger           2    8.00"` (the claimed item line, with 11 spaces
between the name and the quantity) — the item name is padded to 16
characters and followed by a separator space, so the gap is 13 spaces. -/
theorem C7_counterexample :
    (generate_receipt_lines c7Payload).contains "Burger           2    8.00"
      = false := by
  decide

/-- C7 amended: the item line is `"Burger             2    8.00"`
(name left-justified in 16 columns, a separator space, quantity
right-justified in 3, price right-justified in 8), and the unique
`TOTAL:` line of the totals block is `"TOTAL:                 8.96"`,
which contains `8.96`. -/
theorem C7_amended_rendering :
    (generate_receipt_lines c7Payload).contains "Burger             2    8.00"
        = true ∧
    (generate_receipt_lines c7Payload).filter
        (fun l => startsWithL l.data ("TOTAL:".data))
      = ["TOTAL:                 8.96"] := by
  constructor
  · decide
  · decide

/-- C8: whenever `poll_active_sessions` reports failure (connection
error, other exception, non-200 status, unparseable body, or a body with
`success = false`), the session cache and the current-order pointer are
exactly as before the call. -/
theorem C8_poll_failure_preserves_state (st : CashState) (resp : PollResponse)
    (h : (poll_active_sessions st resp).2.1 = false) :
    (poll_active_sessions st resp).1 = st := by
  cases resp with
  | netError => rfl
  | http status body =>
    by_cases hs : (status == 200) = true
    · cases body with
      | none => simp [poll_active_sessions, hs]
      | some data =>
        by_cases hd : data.success = true
        · exfalso
          simp [poll_active_sessions, hs, hd] at h
        · simp [poll_active_sessions, hs, hd]
    · rw [Bool.not_eq_true] at hs
      simp [poll_active_sessions, hs]

/-- C8 witness: a connection error at a concrete state leaves the state
untouched. -/
theorem C8_witness :
    (poll_active_sessions ⟨some "A", [("A", ⟨"A", 5, 0⟩)]⟩
        PollResponse.netError).2.1 = false ∧
    (poll_active_sessions ⟨some "A", [("A", ⟨"A", 5, 0⟩)]⟩
        PollResponse.netError).1 = ⟨some "A", [("A", ⟨"A", 5, 0⟩)]⟩ :=
  ⟨rfl, C8_poll_failure_preserves_state _ PollResponse.netError rfl⟩

/-- C9: with local cache `{a, b}` and remote set `{b, c}` (all keys
distinct), one poll fires exactly one appeared notification (for `c`),
exactly one disappeared notification (for `a`), none for `b`, and leaves
the cache equal to `{b, c}`. -/
theorem C9_reconciler_diff (cur : Option String) (a b c : String)
    (sa sb sb2 sc : SessionData)
    (hb : sb2.orderNumber = b) (hc : sc.orderNumber = c)
    (hab : a ≠ b) (hac : a ≠ c) (hbc : b ≠ c) :
    (poll_active_sessions ⟨cur, [(a, sa), (b, sb)]⟩
        (PollResponse.http 200 (some ⟨true, [sb2, sc]⟩))).2.2 =
      [SessionEvent.newSession c, SessionEvent.sessionGone a] ∧
    (poll_active_sessions ⟨cur, [(a, sa), (b, sb)]⟩
        (PollResponse.http 200 (some ⟨true, [sb2, sc]⟩))).1.active_sessions =
      [(b, sb2), (c, sc)] := by
  subst hb hc
  constructor <;>
    simp [poll_active_sessions, buildSessions, dictInsert, dictMem,
      hab, hac, hbc, Ne.symm hab, Ne.symm hac, Ne.symm hbc]

/-- C9 witness: the diff at concrete sessions A, B, C. -/
theorem C9_witness :
    (poll_active_sessions ⟨none, [("A", ⟨"A", 5, 0⟩), ("B", ⟨"B", 7, 0⟩)]⟩
        (PollResponse.http 200 (some ⟨true, [⟨"B", 7, 2⟩, ⟨"C", 9, 0⟩]⟩))).2.2 =
      [SessionEvent.newSession "C", SessionEvent.sessionGone "A"] ∧
    (poll_active_sessions ⟨none, [("A", ⟨"A", 5, 0⟩), ("B", ⟨"B", 7, 0⟩)]⟩
        (PollResponse.http 200 (some ⟨true, [⟨"B", 7, 2⟩, ⟨"C", 9, 0⟩]⟩))).1.active_sessions =
      [("B", ⟨"B", 7, 2⟩), ("C", ⟨"C", 9, 0⟩)] :=
  C9_reconciler_diff none "A" "B" "C" ⟨"A", 5, 0⟩ ⟨"B", 7, 0⟩ ⟨"B", 7, 2⟩ ⟨"C", 9, 0⟩
    rfl rfl (by decide) (by decide) (by decide)

/-! ## Parser characterizations and claims C1, C3, C4 -/
/-- Characterization of the unified parser on a `BILL:` line. -/
theorem kiosk_parse_bill (cur : Option String) (line payload : List Char)
    (hd : pyStrip line = "BILL:".data ++ payload) :
    Kiosk.parse_arduino_data cur line =
      (match cur with
       | none => none
       | some o =>
         if o == "" then none
         else
           match pyFloat payload with
           | none => none
           | some amount =>
             if 0 < amount then some ⟨o, amount⟩ else none) := by
  unfold Kiosk.parse_arduino_data
  rw [hd]
  rfl

/-- Characterization of the unified parser on a `COIN:` line. -/
theorem kiosk_parse_coin (cur : Option String) (line payload : List Char)
    (hd : pyStrip line = "COIN:".data ++ payload) :
    Kiosk.parse_arduino_data cur line =
      (match cur with
       | none => none
       | some o =>
         if o == "" then none
         else
           match pyFloat payload with
           | none => none
           | some amount =>
             if 0 < amount then some ⟨o, amount⟩ else none) := by
  unfold Kiosk.parse_arduino_data
  rw [hd]
  rfl

/-- Characterization of the standalone parser on a `CANCEL` line. -/
theorem acr_parse_cancel (cur : Option String) (line : List Char)
    (hd : pyStrip line = "CANCEL".data) :
    Acr.parse_arduino_data cur line =
      (match cur with
       | none => ⟨none, [], cur⟩
       | some o =>
         if o == "" then ⟨none, [], cur⟩
         else ⟨none, [RemoteCall.cancel o], none⟩) := by
  unfold Acr.parse_arduino_data
  rw [hd]
  rfl

/-- Characterization of the unified parser on a `CANCEL` line: it falls
through to the unrecognized-message branch. -/
theorem kiosk_parse_cancel (cur : Option String) (line : List Char)
    (hd : pyStrip line = "CANCEL".data) :
    Kiosk.parse_arduino_data cur line = none := by
  unfold Kiosk.parse_arduino_data
  rw [hd]
  cases cur <;> rfl

/-- Characterization of the standalone parser on `BILL:`/`COIN:` lines
with no truthy current order. -/
theorem acr_parse_billcoin_no_order (line payload : List Char)
    (hd : pyStrip line = "BILL:".data ++ payload ∨
          pyStrip line = "COIN:".data ++ payload) :
    Acr.parse_arduino_data none line = ⟨none, [], none⟩ := by
  unfold Acr.parse_arduino_data
  rcases hd with hd | hd <;> rw [hd] <;> rfl




/-- C1: a `BILL:`/`COIN:` line whose payload parses to a positive amount,
received with a truthy current order, produces exactly one `CashUpdate`
carrying that order and amount; forwarding it makes exactly one update
call when the first attempt is answered HTTP 200, and every attempt ever
made for it carries `orderNumber = o` and `amountAdded = amt`. -/
theorem C1_cash_line_single_update (o : String) (line payload : List Char)
    (amt : ℚ) (ho : o ≠ "")
    (hline : pyStrip line = "BILL:".data ++ payload ∨
             pyStrip line = "COIN:".data ++ payload)
    (hamt : pyFloat payload = some amt) (hpos : 0 < amt) :
    Kiosk.parse_arduino_data (some o) line = some ⟨o, amt⟩ ∧
    (∀ (c : Bool) (rest : List AttemptOutcome),
      (send_cash_update (some o) ⟨o, amt⟩
          (AttemptOutcome.http 200 c :: rest)).2.1 =
        [RemoteCall.update o amt]) ∧
    (∀ (outs : List AttemptOutcome) (call : RemoteCall),
      call ∈ (send_cash_update (some o) ⟨o, amt⟩ outs).2.1 →
      call = RemoteCall.update o amt) := by
  have hbq : (o == "") = false := beq_eq_false_iff_ne.mpr ho
  refine ⟨?_, ?_, ?_⟩
  · rcases hline with hd | hd
    · rw [kiosk_parse_bill (some o) line payload hd]
      simp [hbq, hamt, hpos]
    · rw [kiosk_parse_coin (some o) line payload hd]
      simp [hbq, hamt, hpos]
  · intro c rest
    rw [send_cash_update_first_success]
  · intro outs call h
    exact send_cash_update_calls_payload (some o) ⟨o, amt⟩ outs call h

/-- C1 witness: the line `BILL:100` with current order `K-1`. -/
theorem C1_witness :
    Kiosk.parse_arduino_data (some "K-1") ("BILL:100\n".data) =
      some ⟨"K-1", 100⟩ ∧
    (send_cash_update (some "K-1") ⟨"K-1", 100⟩
        [AttemptOutcome.http 200 false, AttemptOutcome.exn,
         AttemptOutcome.exn]).2.1 =
      [RemoteCall.update "K-1" 100] := by
  have h := C1_cash_line_single_update "K-1" ("BILL:100\n".data) ("100".data)
    100 (by decide) (Or.inl (by decide)) (by decide) (by decide)
  exact ⟨h.1, h.2.1 false [AttemptOutcome.exn, AttemptOutcome.exn]⟩

/-- C3 counterexample: in `kiosk_peripherals.py` a `CANCEL` line received
with a current order set produces no cancel-payment call and leaves the
current-order pointer set, contradicting the claim that exactly one
cancel call is issued and the pointer cleared. -/
theorem C3_counterexample :
    Kiosk.parse_arduino_data (some "ORD-1") ("CANCEL".data) = none ∧
    (kioskParseEffect (some "ORD-1") ("CANCEL".data)).calls = [] ∧
    (kioskParseEffect (some "ORD-1") ("CANCEL".data)).current_order =
      some "ORD-1" := by
  refine ⟨?_, rfl, rfl⟩
  decide

/-- C3 amended: the claimed CANCEL control behaviour holds for the
standalone `arduino_cash_reader.py` parser (one cancel call and a cleared
pointer when a current order is set, a no-op otherwise, never a
`CashUpdate`); the unified `kiosk_peripherals.py` parser instead treats
`CANCEL` as an unrecognized message — no `CashUpdate`, no remote call,
pointer untouched. -/
theorem C3_cancel_control (o : String) (line : List Char) (ho : o ≠ "")
    (hline : pyStrip line = "CANCEL".data) :
    Acr.parse_arduino_data (some o) line =
      ⟨none, [RemoteCall.cancel o], none⟩ ∧
    Acr.parse_arduino_data none line = ⟨none, [], none⟩ ∧
    Kiosk.parse_arduino_data (some o) line = none ∧
    kioskParseEffect (some o) line = ⟨none, [], some o⟩ := by
  have hbq : (o == "") = false := beq_eq_false_iff_ne.mpr ho
  refine ⟨?_, ?_, ?_, ?_⟩
  · rw [acr_parse_cancel (some o) line hline]
    simp [hbq]
  · rw [acr_parse_cancel none line hline]
  · exact kiosk_parse_cancel (some o) line hline
  · unfold kioskParseEffect
    rw [kiosk_parse_cancel (some o) line hline]

/-- C3 witness: the `CANCEL` line with current order `ORD-1` in the
standalone reader. -/
theorem C3_witness :
    Acr.parse_arduino_data (some "ORD-1") ("CANCEL\n".data) =
      ⟨none, [RemoteCall.cancel "ORD-1"], none⟩ ∧
    Acr.parse_arduino_data none ("CANCEL\n".data) = ⟨none, [], none⟩ :=
  have h := C3_cancel_control "ORD-1" ("CANCEL\n".data) (by decide) (by decide)
  ⟨h.1, h.2.1⟩

/-- C4: a `BILL:`/`COIN:` line received while no current order is set
yields no `CashUpdate`, the unified read-loop iteration makes zero remote
calls and leaves the state exactly as it was, and the standalone parser
likewise drops the event with no call and no state change. -/
theorem C4_no_order_drops_event (st : CashState) (line payload : List Char)
    (outs : List AttemptOutcome)
    (hcur : st.current_order = none)
    (hline : pyStrip line = "BILL:".data ++ payload ∨
             pyStrip line = "COIN:".data ++ payload) :
    Kiosk.parse_arduino_data st.current_order line = none ∧
    kioskReadIteration st line outs = (st, []) ∧
    Acr.parse_arduino_data st.current_order line = ⟨none, [], none⟩ := by
  have hparse : Kiosk.parse_arduino_data st.current_order line = none := by
    rw [hcur]
    rcases hline with hd | hd
    · rw [kiosk_parse_bill none line payload hd]
    · rw [kiosk_parse_coin none line payload hd]
  refine ⟨hparse, ?_, ?_⟩
  · unfold kioskReadIteration
    rw [hparse]
  · rw [hcur]
    exact acr_parse_billcoin_no_order line payload hline

/-- C4 witness: the line `COIN:5` with no current order and an empty
cache. -/
theorem C4_witness :
    Kiosk.parse_arduino_data none ("COIN:5\n".data) = none ∧
    kioskReadIteration ⟨none, []⟩ ("COIN:5\n".data) [] = (⟨none, []⟩, []) :=
  have h := C4_no_order_drops_event ⟨none, []⟩ ("COIN:5\n".data) ("5".data) []
    rfl (Or.inr (by decide))
  ⟨h.1, h.2.1⟩

/-! ## Claim C10: the pointer/cache invariant -/
/-- The standalone parser either keeps `current_order` or clears it. -/
theorem acr_parse_cur (cur : Option String) (line : List Char) :
    (Acr.parse_arduino_data cur line).current_order = cur ∨
    (Acr.parse_arduino_data cur line).current_order = none := by
  cases cur <;> unfold Acr.parse_arduino_data <;>
    repeat' first
      | (left; rfl)
      | (right; rfl)
      | split
      | simp_all

/-- A poll preserves the pointer/cache invariant. -/
theorem poll_preserves_inv (st : CashState) (resp : PollResponse)
    (hinv : PointerInv st) : PointerInv (poll_active_sessions st resp).1 := by
  cases resp with
  | netError => exact hinv
  | http status body =>
    by_cases hs : (status == 200) = true
    · cases body with
      | none => simpa [poll_active_sessions, hs] using hinv
      | some data =>
        by_cases hd : data.success = true
        · intro o ho
          simp only [poll_active_sessions, hs, hd, if_true] at ho ⊢
          generalize hNc : buildSessions data.sessions = N at ho ⊢
          have key :
              (if ((st.active_sessions.map (fun p => p.1)).filter
                    (fun k => !dictMem N k)).any
                    (fun k => st.current_order == some k) then none
               else st.current_order) = some o →
              dictMem N o = true := by
            intro h1
            by_cases hg : ((st.active_sessions.map (fun p => p.1)).filter
                (fun k => !dictMem N k)).any
                (fun k => st.current_order == some k) = true
            · rw [if_pos hg] at h1; cases h1
            · rw [if_neg hg] at h1
              have hmem := hinv o h1
              by_contra hno
              apply hg
              rw [List.any_eq_true]
              refine ⟨o, ?_, ?_⟩
              · rw [List.mem_filter]
                constructor
                · rw [List.mem_map]
                  rcases List.any_eq_true.mp hmem with ⟨p, hp, hpo⟩
                  exact ⟨p, hp, by simpa using hpo⟩
                · simpa using hno
              · simp [h1]
          cases N with
          | nil => exact key ho
          | cons p rest =>
            have ho2 :
                (if truthyOrder
                    (if ((st.active_sessions.map (fun p => p.1)).filter
                          (fun k => !dictMem (p :: rest) k)).any
                          (fun k => st.current_order == some k) then none
                     else st.current_order) = true then
                  (if ((st.active_sessions.map (fun p => p.1)).filter
                        (fun k => !dictMem (p :: rest) k)).any
                        (fun k => st.current_order == some k) then none
                   else st.current_order)
                 else some p.1) = some o := ho
            split at ho2
            · have ho3 : some p.1 = some o := ho2
              cases ho3
              simp [dictMem]
            · rename_i hany
              by_cases htr : truthyOrder st.current_order = true
              · rw [if_pos htr] at ho2
                refine key ?_
                rw [if_neg hany]
                exact ho2
              · rw [if_neg htr] at ho2
                cases ho2
                simp [dictMem]
        · simpa [poll_active_sessions, hs, hd] using hinv
    · rw [Bool.not_eq_true] at hs
      simpa [poll_active_sessions, hs] using hinv



/-- Every operation of the cash reader preserves the pointer/cache
invariant. -/
theorem applyStep_preserves_inv (st : CashState) (s : Step)
    (hinv : PointerInv st) : PointerInv (applyStep st s) := by
  cases s with
  | poll resp => exact poll_preserves_inv st resp hinv
  | kioskLine line outs =>
    simp only [applyStep, kioskReadIteration]
    cases hp : Kiosk.parse_arduino_data st.current_order line with
    | none => exact hinv
    | some u =>
      intro o ho
      have ho2 : (send_cash_update st.current_order u outs).2.2 = some o := ho
      rcases send_cash_update_cur st.current_order u outs with hc | hc
      · rw [hc] at ho2
        exact hinv o ho2
      · rw [hc] at ho2
        cases ho2
  | acrLine line outs =>
    simp only [applyStep]
    cases hu : (Acr.parse_arduino_data st.current_order line).update with
    | none =>
      intro o ho
      have ho2 : (Acr.parse_arduino_data st.current_order line).current_order
          = some o := ho
      rcases acr_parse_cur st.current_order line with hc | hc
      · rw [hc] at ho2
        exact hinv o ho2
      · rw [hc] at ho2
        cases ho2
    | some u =>
      intro o ho
      have ho2 : (send_cash_update
          (Acr.parse_arduino_data st.current_order line).current_order u
          outs).2.2 = some o := ho
      rcases send_cash_update_cur
          (Acr.parse_arduino_data st.current_order line).current_order u outs
        with hc | hc
      · rw [hc] at ho2
        rcases acr_parse_cur st.current_order line with hc2 | hc2
        · rw [hc2] at ho2
          exact hinv o ho2
        · rw [hc2] at ho2
          cases ho2
      · rw [hc] at ho2
        cases ho2

/-- C10: from the initial state (pointer unset, cache empty), every
sequence of polls and device-line handlings leaves the current-order
pointer either unset or equal to a key of the session cache. -/
theorem C10_pointer_in_cache (steps : List Step) :
    PointerInv (runSteps steps) := by
  have base : PointerInv initState := by
    intro o ho
    cases ho
  suffices h : ∀ st : CashState, PointerInv st →
      PointerInv (steps.foldl applyStep st) by
    exact h initState base
  induction steps with
  | nil => intro st h; exact h
  | cons s rest ih =>
    intro st h
    exact ih (applyStep st s) (applyStep_preserves_inv st s h)

end RestaurantKiosk
